import Mathlib

/-!
Verification of the auto-memoization ("Forget") compiler's generated code, as
evidenced by the fixture corpus under
`src/compiler/packages/babel-plugin-react-forget/src/__tests__/fixtures/compiler`
and `src/unnamed/part_000..part_002`.  Each fixture pairs an original JavaScript
function ("Input") with the compiled, memoized function ("Code").  We embed both
sides of the relevant fixtures as Lean functions over a small model of JavaScript
runtime values with reference identity, and prove (or refute) the specified
properties of the generated code: cache-hit/miss dispatch by `!==` identity,
early-return replay via sentinel slots, slot counts, scope extent over closures
that mutate captured values, and the all-or-nothing discipline of cache writes.
-/

namespace Forget

/-- A model of the JavaScript runtime values that appear in the fixture corpus.
Objects, arrays and function values carry an allocation address `addr`; two
object references are the same JS object exactly when their addresses agree.
`symbolFor key` models `Symbol.for(key)`: a symbol drawn from the global symbol
registry, so two occurrences of `Symbol.for` with the same key yield the same
symbol. Object and array contents are carried inline as the snapshot of the
object's fields at that point of the (single-threaded) execution. -/
inductive JSValue where
  | undef : JSValue
  | null : JSValue
  | boolean : Bool → JSValue
  | number : Int → JSValue
  | str : String → JSValue
  | obj : Nat → List (String × JSValue) → JSValue
  | arr : Nat → List JSValue → JSValue
  | closure : Nat → JSValue
  | symbolFor : String → JSValue

/-- JavaScript strict equality `===`: primitives compare by value, registered
symbols by registry key, and objects / arrays / functions by reference identity
(allocation address) only. -/
def strictEq : JSValue → JSValue → Bool
  | .undef, .undef => true
  | .null, .null => true
  | .boolean a, .boolean b => a == b
  | .number a, .number b => a == b
  | .str a, .str b => a == b
  | .obj a _, .obj b _ => a == b
  | .arr a _, .arr b _ => a == b
  | .closure a, .closure b => a == b
  | .symbolFor a, .symbolFor b => a == b
  | _, _ => false

/-- JavaScript `!==`, the comparison the generated code uses on dependency
slots. -/
def strictNeq (a b : JSValue) : Bool := !(strictEq a b)

/-- JavaScript `ToBoolean` as needed by the fixtures: `if (cond)`. -/
def truthy : JSValue → Bool
  | .undef => false
  | .null => false
  | .boolean b => b
  | .number n => n != 0
  | .str s => s ≠ ""
  | .obj _ _ => true
  | .arr _ _ => true
  | .closure _ => true
  | .symbolFor _ => true

/-- JavaScript loose `x == null`, true exactly for `null` and `undefined`. -/
def looseNull : JSValue → Bool
  | .undef => true
  | .null => true
  | _ => false

/-- Observation of a value up to top-level reference identity: the allocation
address of the outermost object is normalized away.  Two runs of a fixture that
return structurally identical data with different allocation addresses are
observationally equal.  (The fixture outputs compared below nest no further
fresh allocations, so normalizing the top address suffices.) -/
def observe : JSValue → JSValue
  | .obj _ fs => .obj 0 fs
  | .arr _ es => .arr 0 es
  | .closure _ => .closure 0
  | v => v

/-- `Symbol.for("react.memo_cache_sentinel")`: the marker the generated code
compares cache slots against to detect the first call. -/
def memoSentinel : JSValue := .symbolFor "react.memo_cache_sentinel"

/-- `Symbol.for("react.early_return_sentinel")`: the marker the generated code
stores in an early-exit slot when the scope body did not take an early
return. -/
def earlySentinel : JSValue := .symbolFor "react.early_return_sentinel"

/-- A memo cache of two slots, as obtained from `useMemoCache(2)`. -/
structure Cache2 where
  s0 : JSValue
  s1 : JSValue

/-- Modelled from the spec: the `useMemoCache` runtime that allocates and
initializes the cache array is not under `src/` (only the compiled fixtures
that consume it are).  Per the spec, slots start as the distinguished
"uninitialized" sentinel for the first call; the generated code's first-call
checks (`$[0] === Symbol.for("react.memo_cache_sentinel")`) pin that sentinel
to be exactly `memoSentinel`. -/
def initCache2 : Cache2 := ⟨memoSentinel, memoSentinel⟩

/-- Compiled `Component` of `src/unnamed/part_002` (one reactive scope, one
dependency `state`, one output `t0`):

    const $ = useMemoCache(2);
    const [state] = useState(null);
    let t0;
    if ($[0] !== state) { t0 = [state]; $[0] = state; $[1] = t0; }
    else { t0 = $[1]; }
    return t0;

`state` is the value `useState` returned for this invocation; `fresh` is the
next free allocation address, bumped by the array literal `[state]`.  Returns
the result, the updated cache and the updated allocation counter. -/
def Component_p002 (fresh : Nat) (state : JSValue) (c : Cache2) :
    JSValue × Cache2 × Nat :=
  if strictNeq c.s0 state then
    let t0 := JSValue.arr fresh [state]
    (t0, ⟨state, t0⟩, fresh + 1)
  else
    (c.s1, c, fresh)

/-- Value of the `CONST_STRING0` import from `shared-runtime` (an opaque,
fixed string constant; the fixture only ever compares it with itself). -/
def CONST_STRING0 : JSValue := .str "global string 0"

/-- Shared body of the original and compiled `useHook` of
`labeled-break-within-label-switch.expect.md` (the compiled miss branch repeats
the original statements verbatim, with the inner label renamed `bb0` → `bb3`):

    const log = [];
    switch (CONST_STRING0) {
      case CONST_STRING0:
        log.push(`@A`);
        bb0: { if (cond) break bb0; log.push(`@B`); }
        log.push(`@C`);
    }
    return log;   -- here: the list of pushed elements

The `switch` matches its single case by `===`; `break bb0` skips only the
`@B` push. -/
def useHookLog (cond : JSValue) : List JSValue :=
  if strictEq CONST_STRING0 CONST_STRING0 then
    let log := [JSValue.str "@A"]
    let log := if truthy cond then log else log ++ [JSValue.str "@B"]
    log ++ [JSValue.str "@C"]
  else []

/-- Original `useHook` of `labeled-break-within-label-switch.expect.md`:
allocates the `log` array afresh on each call. -/
def useHook (fresh : Nat) (cond : JSValue) : JSValue × Nat :=
  (JSValue.arr fresh (useHookLog cond), fresh + 1)

/-- Compiled `useHook` of `labeled-break-within-label-switch.expect.md` (one
reactive scope with dependency `cond` and output `log`):

    const $ = useMemoCache(2);
    let log;
    if ($[0] !== cond) { log = [...body...]; $[0] = cond; $[1] = log; }
    else { log = $[1]; }
    return log; -/
def useHookForget (fresh : Nat) (cond : JSValue) (c : Cache2) :
    JSValue × Cache2 × Nat :=
  if strictNeq c.s0 cond then
    let log := JSValue.arr fresh (useHookLog cond)
    (log, ⟨cond, log⟩, fresh + 1)
  else
    (c.s1, c, fresh)

/-- Repeated invocation of the original `useHook` on a sequence of arguments,
threading the allocation counter. -/
def runUseHook : Nat → List JSValue → List JSValue
  | _, [] => []
  | fresh, cond :: rest =>
      (useHook fresh cond).1 :: runUseHook (useHook fresh cond).2 rest

/-- Repeated invocation of the compiled `useHook`, threading the memo cache
(retained across calls by the caller) and the allocation counter. -/
def runUseHookForget : Nat → Cache2 → List JSValue → List JSValue
  | _, _, [] => []
  | fresh, c, cond :: rest =>
      (useHookForget fresh cond c).1 ::
        runUseHookForget (useHookForget fresh cond c).2.2
          (useHookForget fresh cond c).2.1 rest

/-- Original `useFoo` of `src/unnamed/part_000`:

    function useFoo(value1, value2) {
      return { value: useNoAlias(value1 + value2) };
    }

The external call `useNoAlias` is modelled by an oracle `env` mapping the
argument and the global call index to the returned value; `k` counts the
`useNoAlias` calls made so far.  The fixture invokes `useFoo` with number
arguments, so `value1`/`value2` are integers. -/
def useFoo (env : Int → Nat → JSValue) (k fresh : Nat) (v1 v2 : Int) :
    JSValue × Nat × Nat :=
  let t0 := env (v1 + v2) k
  (JSValue.obj fresh [("value", t0)], k + 1, fresh + 1)

/-- Compiled `useFoo` of `src/unnamed/part_000`: the `useNoAlias` call is left
outside the reactive scope and runs on every invocation; the object literal
`{ value: t0 }` is wrapped in a scope with dependency `t0`:

    const $ = useMemoCache(2);
    const t0 = useNoAlias(value1 + value2);
    let t1;
    if ($[0] !== t0) { t1 = { value: t0 }; $[0] = t0; $[1] = t1; }
    else { t1 = $[1]; }
    return t1; -/
def useFooForget (env : Int → Nat → JSValue) (k fresh : Nat) (v1 v2 : Int)
    (c : Cache2) : JSValue × Cache2 × Nat × Nat :=
  let t0 := env (v1 + v2) k
  if strictNeq c.s0 t0 then
    let t1 := JSValue.obj fresh [("value", t0)]
    (t1, ⟨t0, t1⟩, k + 1, fresh + 1)
  else
    (c.s1, c, k + 1, fresh)

/-- Repeated invocation of the original `useFoo`, threading the `useNoAlias`
call counter and the allocation counter. -/
def runUseFoo (env : Int → Nat → JSValue) : Nat → Nat → List (Int × Int) → List JSValue
  | _, _, [] => []
  | k, fresh, (v1, v2) :: rest =>
      (useFoo env k fresh v1 v2).1 ::
        runUseFoo env (useFoo env k fresh v1 v2).2.1 (useFoo env k fresh v1 v2).2.2 rest

/-- Repeated invocation of the compiled `useFoo`, threading the memo cache
(retained across calls), the `useNoAlias` call counter and the allocation
counter. -/
def runUseFooForget (env : Int → Nat → JSValue) :
    Nat → Nat → Cache2 → List (Int × Int) → List JSValue
  | _, _, _, [] => []
  | k, fresh, c, (v1, v2) :: rest =>
      (useFooForget env k fresh v1 v2 c).1 ::
        runUseFooForget env (useFooForget env k fresh v1 v2 c).2.2.1
          (useFooForget env k fresh v1 v2 c).2.2.2
          (useFooForget env k fresh v1 v2 c).2.1 rest

/-- Number of `useNoAlias` calls the compiled `useFoo` has made after running
an argument sequence: the call sits before the scope dispatch, so it executes
on cache hits as well as misses. -/
def useNoAliasCalls (env : Int → Nat → JSValue) :
    Nat → Nat → Cache2 → List (Int × Int) → Nat
  | k, _, _, [] => k
  | k, fresh, c, (v1, v2) :: rest =>
      useNoAliasCalls env (useFooForget env k fresh v1 v2 c).2.2.1
        (useFooForget env k fresh v1 v2 c).2.2.2
        (useFooForget env k fresh v1 v2 c).2.1 rest

/-- External collaborators of `try-catch-with-return.expect.md`: `shallowCopy`
and `throwInput` from `shared-runtime`, modelled as functions that either
return a value (`Except.ok`) or throw one (`Except.error`). -/
structure TCEnv where
  shallowCopy : JSValue → Except JSValue JSValue
  throwInput : JSValue → Except JSValue JSValue

/-- Original `Component` of `try-catch-with-return.expect.md`:

    let x = [];
    try {
      const y = shallowCopy({});
      if (y == null) { return; }
      x.push(throwInput(y));
    } catch {
      return null;
    }
    return x;

The array `x` is allocated at `fresh`, the object literal `{}` at `fresh + 1`. -/
def Component_tc_orig (env : TCEnv) (fresh : Nat) : JSValue × Nat :=
  match env.shallowCopy (JSValue.obj (fresh + 1) []) with
  | .error _ => (JSValue.null, fresh + 2)
  | .ok y =>
      if looseNull y then (JSValue.undef, fresh + 2)
      else
        match env.throwInput y with
        | .error _ => (JSValue.null, fresh + 2)
        | .ok v => (JSValue.arr fresh [v], fresh + 2)

/-- The `bb26` scope body of the compiled `Component` of
`try-catch-with-return.expect.md`, producing the pair `(x, t0)`: `t0` starts as
the early-return sentinel and is overwritten with the early-returned value
(`undefined` on the `y == null` path, `null` on the catch path) when an early
exit replaces `break bb26`; it remains the sentinel on normal completion. -/
def tcScopeBody (env : TCEnv) (fresh : Nat) : JSValue × JSValue :=
  match env.shallowCopy (JSValue.obj (fresh + 1) []) with
  | .error _ => (JSValue.arr fresh [], JSValue.null)
  | .ok y =>
      if looseNull y then (JSValue.arr fresh [], JSValue.undef)
      else
        match env.throwInput y with
        | .error _ => (JSValue.arr fresh [], JSValue.null)
        | .ok v => (JSValue.arr fresh [v], earlySentinel)

/-- Compiled `Component` of `try-catch-with-return.expect.md` (one reactive
scope, no dependencies, two outputs `x` and `t0`):

    const $ = useMemoCache(2);
    let x; let t0;
    if ($[0] === Symbol.for("react.memo_cache_sentinel")) {
      t0 = Symbol.for("react.early_return_sentinel");
      bb26: { x = []; try { ... } catch { t0 = null; break bb26; } }
      $[0] = x; $[1] = t0;
    } else { x = $[0]; t0 = $[1]; }
    if (t0 !== Symbol.for("react.early_return_sentinel")) { return t0; }
    return x; -/
def Component_tc (env : TCEnv) (fresh : Nat) (c : Cache2) :
    JSValue × Cache2 × Nat :=
  if strictEq c.s0 memoSentinel then
    let b := tcScopeBody env fresh
    if strictNeq b.2 earlySentinel then (b.2, ⟨b.1, b.2⟩, fresh + 2)
    else (b.1, ⟨b.1, b.2⟩, fresh + 2)
  else
    if strictNeq c.s1 earlySentinel then (c.s1, c, fresh)
    else (c.s0, c, fresh)

/-- Property assignment `v.key = w` on an object snapshot: any existing
binding of `key` is replaced, new keys are appended. -/
def setField (v : JSValue) (key : String) (w : JSValue) : JSValue :=
  match v with
  | .obj a fs => .obj a (fs.filter (fun p => p.1 ≠ key) ++ [(key, w)])
  | u => u

/-- External collaborator of `obj-mutated-after-if-else-with-alias.expect.md`:
`someObj()` returns a fresh object whose contents are an oracle function of the
call index. -/
structure FooEnv where
  someObjFields : Nat → List (String × JSValue)

/-- Compiled `foo` of `obj-mutated-after-if-else-with-alias.expect.md` (the
first `someObj()` call has unknown effects and an unused result, so it is left
outside any scope and executes on every invocation; the scope has dependency
`a` and output `x`):

    const $ = useMemoCache(2);
    someObj();
    let x;
    if ($[0] !== a) {
      if (a) { const y = someObj(); const z = y; x = z; }
      else { x = someObj(); }
      x.f = 1;
      $[0] = a; $[1] = x;
    } else { x = $[1]; }
    return x;

`k` counts `someObj` calls, `fresh` is the allocation counter; the result is
`(x, cache, someObj call count, allocation counter)`.  The `y`/`z` aliases on
the then-branch denote the same freshly allocated object as the else-branch
produces, so both branches yield one `someObj` call and its result. -/
def foo (env : FooEnv) (k fresh : Nat) (a b c d : JSValue) (cache : Cache2) :
    JSValue × Cache2 × Nat × Nat :=
  if strictNeq cache.s0 a then
    let x0 := if truthy a then JSValue.obj (fresh + 1) (env.someObjFields (k + 1))
              else JSValue.obj (fresh + 1) (env.someObjFields (k + 1))
    let x := setField x0 "f" (JSValue.number 1)
    (x, ⟨a, x⟩, k + 2, fresh + 2)
  else
    (cache.s1, cache, k + 1, fresh + 1)

/-- Reachable cache states of the compiled `foo`: all slots uninitialized, or
all slots populated by one single miss (the dependency snapshot `a` alongside
the output object that miss computed and mutated). -/
def FooCacheOK (env : FooEnv) (cache : Cache2) : Prop :=
  cache = initCache2 ∨
    ∃ a k f, cache =
      ⟨a, setField (JSValue.obj f (env.someObjFields k)) "f" (JSValue.number 1)⟩

/-- Compiled `component` of `capture_mutate-across-fns.expect.md`: the scope
covering the creation of `z`, the closures `f0`/`f1` that mutate it, and their
call sites (dependency `a`, output `z`):

    const $ = useMemoCache(2);
    let z;
    if ($[0] !== a) {
      z = { a };
      const f0 = function () { const f1 = function () { z.b = 1; }; f1(); };
      f0();
      $[0] = a; $[1] = z;
    } else { z = $[1]; }
    return z;

The nested calls `f0()`/`f1()` perform the mutation `z.b = 1` before the
snapshot is stored. -/
def component_cm (fresh : Nat) (a : JSValue) (c : Cache2) :
    JSValue × Cache2 × Nat :=
  if strictNeq c.s0 a then
    let z := setField (JSValue.obj fresh [("a", a)]) "b" (JSValue.number 1)
    (z, ⟨a, z⟩, fresh + 1)
  else
    (c.s1, c, fresh)

/-- Compiled `bar` of `capturing-function-alias-computed-load.expect.md`: the
scope covers `x = [a]`, `y = {}`, the closure `f0` that overwrites `y` with
`x[0]`, and its call (dependency `a`, output `y`); after `f0()` runs, `y` is
`x[0]`, i.e. `a`:

    const $ = useMemoCache(2);
    let y;
    if ($[0] !== a) {
      const x = [a]; y = {};
      const f0 = function () { y = x[0]; };
      f0();
      $[0] = a; $[1] = y;
    } else { y = $[1]; }
    return y;

`x` is allocated at `fresh` and the discarded `{}` at `fresh + 1`. -/
def bar (fresh : Nat) (a : JSValue) (c : Cache2) : JSValue × Cache2 × Nat :=
  if strictNeq c.s0 a then
    (a, ⟨a, a⟩, fresh + 2)
  else
    (c.s1, c, fresh)

/-- A memo cache of a single slot, as obtained from `useMemoCache(1)`. -/
structure Cache1 where
  s0 : JSValue

/-- Single-slot cache in its uninitialized state (see `initCache2`). -/
def initCache1 : Cache1 := ⟨memoSentinel⟩

/-- Result of `makeObject_Primitives()` from `shared-runtime`:
`{ a: 0, b: "value1", c: true }`, allocated fresh on each call (the fixture's
eval output records these contents). -/
def makeObject_Primitives (fresh : Nat) : JSValue :=
  JSValue.obj fresh
    [("a", JSValue.number 0), ("b", JSValue.str "value1"),
     ("c", JSValue.boolean true)]

/-- Compiled `Component` of
`useMemo-maybe-modified-later-preserve-memoization-guarantees.expect.md`
(`@enablePreserveExistingMemoizationGuarantees` set): the `useMemo` computation
keeps its own scope with the explicit dependency list `[]` (a bare sentinel
check, never invalidated), and the later use `identity(object)` stays outside
the scope:

    const $ = useMemoCache(1);
    let t0; let t1;
    if ($[0] === Symbol.for("react.memo_cache_sentinel")) {
      t1 = makeObject_Primitives(); $[0] = t1;
    } else { t1 = $[0]; }
    t0 = t1;
    const object = t0;
    identity(object);
    return object;

Result: `(object, cache, makeObject_Primitives calls, identity calls,
allocation counter)`. -/
def Component_preserve (mk idc fresh : Nat) (c : Cache1) :
    JSValue × Cache1 × Nat × Nat × Nat :=
  if strictEq c.s0 memoSentinel then
    let t1 := makeObject_Primitives fresh
    (t1, ⟨t1⟩, mk + 1, idc + 1, fresh + 1)
  else
    (c.s0, c, mk, idc + 1, fresh)

/-- Compiled `Component` of `capturing-function-decl.expect.md` (second
document, `@enablePreserveExistingMemoizationGuarantees:false`): with the flag
disabled, the scope extends over the later use `identity(object)`, which is
therefore skipped on a cache hit:

    const $ = useMemoCache(2);
    let t7; let object;
    if ($[0] === Symbol.for("react.memo_cache_sentinel")) {
      t7 = makeObject_Primitives(); object = t7; identity(object);
      $[0] = object; $[1] = t7;
    } else { object = $[0]; t7 = $[1]; }
    return object; -/
def Component_noPreserve (mk idc fresh : Nat) (c : Cache2) :
    JSValue × Cache2 × Nat × Nat × Nat :=
  if strictEq c.s0 memoSentinel then
    let t7 := makeObject_Primitives fresh
    (t7, ⟨t7, t7⟩, mk + 1, idc + 1, fresh + 1)
  else
    (c.s0, c, mk, idc, fresh)

/-- Repeated invocation of the flag-enabled component, threading cache and
counters. -/
def runPreserve : Nat → Cache1 → Nat → Nat → Nat → Cache1 × Nat × Nat × Nat
  | 0, c, mk, idc, fresh => (c, mk, idc, fresh)
  | n + 1, c, mk, idc, fresh =>
      runPreserve n (Component_preserve mk idc fresh c).2.1
        (Component_preserve mk idc fresh c).2.2.1
        (Component_preserve mk idc fresh c).2.2.2.1
        (Component_preserve mk idc fresh c).2.2.2.2

/-- Repeated invocation of the flag-disabled component, threading cache and
counters. -/
def runNoPreserve : Nat → Cache2 → Nat → Nat → Nat → Cache2 × Nat × Nat × Nat
  | 0, c, mk, idc, fresh => (c, mk, idc, fresh)
  | n + 1, c, mk, idc, fresh =>
      runNoPreserve n (Component_noPreserve mk idc fresh c).2.1
        (Component_noPreserve mk idc fresh c).2.2.1
        (Component_noPreserve mk idc fresh c).2.2.2.1
        (Component_noPreserve mk idc fresh c).2.2.2.2

/-- Compiled `Component` of `hoisting-within-lambda.expect.md`: two reactive
scopes, each with no dependencies and one output, dispatched by a bare
sentinel check.  The first caches the outer arrow function (a closure value);
the second caches the JSX element `<div>{outer()}</div>`, an opaque create
instruction whose child operand `outer()` evaluates to `3` (the inner lambda
reads the hoisted `const x = 3`). -/
def Component_hoisting (fresh : Nat) (c : Cache2) : JSValue × Cache2 × Nat :=
  if strictEq c.s0 memoSentinel then
    let t1 := JSValue.closure fresh
    if strictEq c.s1 memoSentinel then
      let t2 := JSValue.obj (fresh + 1)
        [("tag", JSValue.str "div"), ("children", JSValue.number 3)]
      (t2, ⟨t1, t2⟩, fresh + 2)
    else (c.s1, ⟨t1, c.s1⟩, fresh + 1)
  else
    if strictEq c.s1 memoSentinel then
      let t2 := JSValue.obj fresh
        [("tag", JSValue.str "div"), ("children", JSValue.number 3)]
      (t2, ⟨c.s0, t2⟩, fresh + 1)
    else (c.s1, c, fresh)

/-- Outputs of `n` repeated invocations of the compiled hoisting component. -/
def runHoistingOuts : Nat → Cache2 → Nat → List JSValue
  | 0, _, _ => []
  | n + 1, c, fresh =>
      (Component_hoisting fresh c).1 ::
        runHoistingOuts n (Component_hoisting fresh c).2.1
          (Component_hoisting fresh c).2.2

/-- Shape of a reactive scope as it appears in generated code: how many
dependency-snapshot slots and how many output slots it owns. -/
structure ScopeShape where
  deps : Nat
  outs : Nat

/-- Total cache slot count of a compiled function: one slot per dependency
comparison plus one per output, summed over its reactive scopes.  This is the
number passed to `useMemoCache(...)`. -/
def slotCount (ss : List ScopeShape) : Nat :=
  (ss.map (fun s => s.deps + s.outs)).sum

/-- Scope shapes of the compiled `Component` of `src/unnamed/part_002`
(`useMemoCache(2)`): one scope, dependency `state`, output `t0`. -/
def scopes_p002 : List ScopeShape := [⟨1, 1⟩]

/-- Scope shapes of the compiled `Component` of
`capture_mutate-across-fns.expect.md` (second document, `useMemoCache(3)`):
one scope, dependencies `props.a` and `props.b`, output `x`. -/
def scopes_props_ab : List ScopeShape := [⟨2, 1⟩]

/-- Scope shapes of the compiled `useFoo` of `src/unnamed/part_000`
(`useMemoCache(2)`): one scope, dependency `t0`, output `t1`. -/
def scopes_useFoo : List ScopeShape := [⟨1, 1⟩]

/-- Scope shapes of the compiled `Component` of
`hoisting-within-lambda.expect.md` (`useMemoCache(2)`): two scopes with no
dependencies and one output each. -/
def scopes_hoisting : List ScopeShape := [⟨0, 1⟩, ⟨0, 1⟩]

/-- Scope shapes of the compiled `Component` of
`try-catch-with-return.expect.md` (`useMemoCache(2)`): one scope with no
dependencies and two outputs (`x` and the early-return slot `t0`). -/
def scopes_tryCatch : List ScopeShape := [⟨0, 2⟩]

/-- Scope shapes of the compiled `component` of `src/unnamed/part_001` (second
document, `useMemoCache(3)`): the outer scope (dependency `a`, output `t`) and
the nested function-declaration scope (no dependencies, output `t0`). -/
def scopes_p001 : List ScopeShape := [⟨1, 1⟩, ⟨0, 1⟩]

/-- A reactive scope as seen by the slot allocator: the identities of its
dependency values (integer value ids, in source order) and its output count. -/
structure ScopeInfo where
  deps : List Nat
  outs : Nat

/-- Allocator state: which dependency value already owns which slot, and the
next free slot index. -/
structure AllocSt where
  seen : List (Nat × Nat)
  next : Nat

/-- Slot already assigned to dependency value `d`, if any. -/
def findSlot : List (Nat × Nat) → Nat → Option Nat
  | [], _ => none
  | (k, v) :: rest, d => if k = d then some v else findSlot rest d

/-- Modelled from the spec: the Dependency/Cache-Slot Allocator (§4.4) is not
under `src/` (only its outputs, the fixtures, are).  Per the spec it assigns
"each scope's output ... one slot and each distinct dependency comparison ...
one slot (shared if dependencies are ... provably the same Value)",
deterministically in first-appearance order.  `depSlot` reuses the slot of an
already-seen dependency and otherwise assigns the next free index. -/
def depSlot (st : AllocSt) (d : Nat) : AllocSt × Nat :=
  match findSlot st.seen d with
  | some i => (st, i)
  | none => (⟨st.seen ++ [(d, st.next)], st.next + 1⟩, st.next)

/-- Modelled from the spec: slots of one scope — its dependency slots in
source order (shared with earlier identical dependencies), then its output
slots. -/
def allocScope (st : AllocSt) (s : ScopeInfo) : AllocSt × (List Nat × List Nat) :=
  let ds := s.deps.foldl
    (fun (acc : AllocSt × List Nat) d =>
      ((depSlot acc.1 d).1, acc.2 ++ [(depSlot acc.1 d).2]))
    (st, [])
  (⟨ds.1.seen, ds.1.next + s.outs⟩, (ds.2, List.range' ds.1.next s.outs))

/-- Modelled from the spec: the full allocation pass — scopes in
first-appearance (source) order; returns each scope's slot assignment and the
final allocator state (whose `next` is the total slot count compiled into the
`useMemoCache` call). -/
def allocate : AllocSt → List ScopeInfo → List (List Nat × List Nat) × AllocSt
  | st, [] => ([], st)
  | st, s :: rest =>
      ((allocScope st s).2 :: (allocate (allocScope st s).1 rest).1,
        (allocate (allocScope st s).1 rest).2)

/-- Initial allocator state: nothing seen, next slot 0. -/
def allocInit : AllocSt := ⟨[], 0⟩

/-- Reachable cache states of the compiled `useHook`: either still
uninitialized, or populated by some previous miss on a dependency `d` (itself
not the sentinel), holding the dependency snapshot and the log array computed
from it. -/
def UseHookInv (c : Cache2) : Prop :=
  c = initCache2 ∨
    ∃ d a, strictEq memoSentinel d = false ∧ c = ⟨d, JSValue.arr a (useHookLog d)⟩

/-- Reachable cache states of the compiled `useFoo`: either still
uninitialized, or populated by a previous miss on a `useNoAlias` result `t`
(itself not the sentinel), holding the snapshot and the object built from
it. -/
def UseFooInv (env : Int → Nat → JSValue) (c : Cache2) : Prop :=
  c = initCache2 ∨
    ∃ t a, (∃ x k, t = env x k) ∧ strictEq memoSentinel t = false ∧
      c = ⟨t, JSValue.obj a [("value", t)]⟩

end Forget

open Forget

/-- Strict equality respects JavaScript truthiness: `===`-equal values coerce
to the same boolean. -/
theorem strictEq_truthy {a b : JSValue} (h : strictEq a b = true) :
    truthy a = truthy b := by
  cases a <;> cases b <;> simp_all [strictEq, truthy]

/-- `===`-equal dependencies produce the same `useHook` log. -/
theorem useHookLog_congr {a b : JSValue} (h : strictEq a b = true) :
    useHookLog a = useHookLog b := by
  simp only [useHookLog, strictEq_truthy h]

/-- Miss equation for the compiled `useHook` scope. -/
theorem useHookForget_miss (fresh : Nat) (cond : JSValue) (c : Cache2)
    (h : strictEq c.s0 cond = false) :
    useHookForget fresh cond c =
      (JSValue.arr fresh (useHookLog cond),
        ⟨cond, JSValue.arr fresh (useHookLog cond)⟩, fresh + 1) := by
  simp [useHookForget, strictNeq, h]

/-- Hit equation for the compiled `useHook` scope. -/
theorem useHookForget_hit (fresh : Nat) (cond : JSValue) (c : Cache2)
    (h : strictEq c.s0 cond = true) :
    useHookForget fresh cond c = (c.s1, c, fresh) := by
  simp [useHookForget, strictNeq, h]

/-- Inductive core of the `useHook` equivalence: from any reachable cache
state, compiled and original runs are observationally identical, for any
argument sequence avoiding the sentinel symbol. -/
theorem runUseHook_equiv_aux (conds : List JSValue) :
    ∀ f1 f2 c, UseHookInv c →
      (∀ cond ∈ conds, strictEq memoSentinel cond = false) →
      (runUseHookForget f1 c conds).map observe = (runUseHook f2 conds).map observe := by
  induction conds with
  | nil => intro f1 f2 c _ _; rfl
  | cons cond rest ih =>
      intro f1 f2 c hinv hc
      have hcond : strictEq memoSentinel cond = false := hc cond (List.mem_cons_self _ _)
      have hrest : ∀ x ∈ rest, strictEq memoSentinel x = false :=
        fun x hx => hc x (List.mem_cons_of_mem _ hx)
      rcases hinv with h0 | ⟨d, a, hd, hcEq⟩
      · subst h0
        rw [runUseHookForget, runUseHook,
          useHookForget_miss f1 cond initCache2 hcond]
        simp only [useHook, List.map_cons, observe]
        exact congrArg _ (ih (f1 + 1) (f2 + 1) _
          (Or.inr ⟨cond, f1, hcond, rfl⟩) hrest)
      · subst hcEq
        rcases hdc : strictEq d cond with _ | _
        · rw [runUseHookForget, runUseHook, useHookForget_miss f1 cond _ hdc]
          simp only [useHook, List.map_cons, observe]
          exact congrArg _ (ih (f1 + 1) (f2 + 1) _
            (Or.inr ⟨cond, f1, hcond, rfl⟩) hrest)
        · rw [runUseHookForget, runUseHook, useHookForget_hit f1 cond _ hdc]
          simp only [useHook, List.map_cons, observe, useHookLog_congr hdc]
          exact congrArg _ (ih f1 (f2 + 1) _
            (Or.inr ⟨d, a, hd, by rw [useHookLog_congr hdc]⟩) hrest)

/-- Miss equation for the compiled `useFoo` scope. -/
theorem useFooForget_miss (env : Int → Nat → JSValue) (k fresh : Nat)
    (v1 v2 : Int) (c : Cache2)
    (h : strictEq c.s0 (env (v1 + v2) k) = false) :
    useFooForget env k fresh v1 v2 c =
      (JSValue.obj fresh [("value", env (v1 + v2) k)],
        ⟨env (v1 + v2) k, JSValue.obj fresh [("value", env (v1 + v2) k)]⟩,
        k + 1, fresh + 1) := by
  simp [useFooForget, strictNeq, h]

/-- Hit equation for the compiled `useFoo` scope: the `useNoAlias` counter
still advances, but the object construction is skipped and the cache is
untouched. -/
theorem useFooForget_hit (env : Int → Nat → JSValue) (k fresh : Nat)
    (v1 v2 : Int) (c : Cache2)
    (h : strictEq c.s0 (env (v1 + v2) k) = true) :
    useFooForget env k fresh v1 v2 c = (c.s1, c, k + 1, fresh) := by
  simp [useFooForget, strictNeq, h]

/-- Inductive core of the `useFoo` equivalence.  `he` says the external
`useNoAlias` never returns the reserved sentinel symbol; `hcons` is heap
consistency of the oracle: `===`-equal results are the same snapshot. -/
theorem runUseFoo_equiv_aux (env : Int → Nat → JSValue)
    (he : ∀ x k, strictEq memoSentinel (env x k) = false)
    (hcons : ∀ x k y m, strictEq (env x k) (env y m) = true → env x k = env y m)
    (args : List (Int × Int)) :
    ∀ k f1 f2 c, UseFooInv env c →
      (runUseFooForget env k f1 c args).map observe =
        (runUseFoo env k f2 args).map observe := by
  induction args with
  | nil => intro k f1 f2 c _; rfl
  | cons p rest ih =>
      obtain ⟨v1, v2⟩ := p
      intro k f1 f2 c hinv
      rcases hinv with h0 | ⟨t, a, ⟨x, kk, ht⟩, hts, hcEq⟩
      · subst h0
        rw [runUseFooForget, runUseFoo,
          useFooForget_miss env k f1 v1 v2 initCache2 (he _ _)]
        simp only [useFoo, List.map_cons, observe]
        exact congrArg _ (ih (k + 1) (f1 + 1) (f2 + 1) _
          (Or.inr ⟨_, f1, ⟨v1 + v2, k, rfl⟩, he _ _, rfl⟩))
      · subst hcEq
        rcases hdc : strictEq t (env (v1 + v2) k) with _ | _
        · rw [runUseFooForget, runUseFoo, useFooForget_miss env k f1 v1 v2 _ hdc]
          simp only [useFoo, List.map_cons, observe]
          exact congrArg _ (ih (k + 1) (f1 + 1) (f2 + 1) _
            (Or.inr ⟨_, f1, ⟨v1 + v2, k, rfl⟩, he _ _, rfl⟩))
        · have heq : t = env (v1 + v2) k := by
            subst ht; exact hcons x kk (v1 + v2) k hdc
          rw [runUseFooForget, runUseFoo, useFooForget_hit env k f1 v1 v2 _ hdc]
          simp only [useFoo, List.map_cons, observe]
          rw [← heq]
          exact congrArg _ (ih (k + 1) f1 (f2 + 1) _
            (Or.inr ⟨t, a, ⟨x, kk, ht⟩, hts, rfl⟩))

/-- C1 (amended): for the fixtures `labeled-break-within-label-switch`
(`useHook`) and `src/unnamed/part_000` (`useFoo`), repeatedly invoking the
compiled function (threading its retained memo cache) produces the same
sequence of observable outputs as repeatedly invoking the original, for every
argument sequence — provided no argument and no external-call result is the
reserved registered sentinel symbol `Symbol.for("react.memo_cache_sentinel")`
(and, for `useFoo`, the external `useNoAlias` oracle is heap-consistent:
`===`-equal results denote the same value).  Outputs are compared up to
top-level allocation address; repeated calls with unchanged dependencies skip
recomputation but return observationally identical values. -/
theorem forget_observational_equivalence
    (conds : List JSValue)
    (hc : ∀ cond ∈ conds, strictEq memoSentinel cond = false)
    (env : Int → Nat → JSValue) (args : List (Int × Int))
    (he : ∀ x k, strictEq memoSentinel (env x k) = false)
    (hcons : ∀ x k y m, strictEq (env x k) (env y m) = true → env x k = env y m) :
    (runUseHookForget 0 initCache2 conds).map observe =
      (runUseHook 0 conds).map observe ∧
    (runUseFooForget env 0 0 initCache2 args).map observe =
      (runUseFoo env 0 0 args).map observe :=
  ⟨runUseHook_equiv_aux conds 0 0 initCache2 (Or.inl rfl) hc,
   runUseFoo_equiv_aux env he hcons args 0 0 0 initCache2 (Or.inl rfl)⟩

/-- C1 (witness): the equivalence applied to two repeated calls of each
fixture; the second call of each is a cache hit, and the outputs match the
original's on the nose. -/
theorem forget_observational_equivalence_witness :
    (runUseHookForget 0 initCache2 [JSValue.number 1, JSValue.number 1]).map observe =
      [JSValue.arr 0 [JSValue.str "@A", JSValue.str "@C"],
       JSValue.arr 0 [JSValue.str "@A", JSValue.str "@C"]] ∧
    (runUseFooForget (fun _ _ => JSValue.number 5) 0 0 initCache2
        [(1, 2), (1, 2)]).map observe =
      [JSValue.obj 0 [("value", JSValue.number 5)],
       JSValue.obj 0 [("value", JSValue.number 5)]] := by
  have h := forget_observational_equivalence
    [JSValue.number 1, JSValue.number 1]
    (by intro c hmem; fin_cases hmem <;> rfl)
    (fun _ _ => JSValue.number 5) [(1, 2), (1, 2)]
    (fun _ _ => rfl) (fun _ _ _ _ _ => rfl)
  exact ⟨h.1.trans rfl, h.2.trans rfl⟩

/-- Strict equality is reflexive on value snapshots. -/
theorem strictEq_refl (v : JSValue) : strictEq v v = true := by
  cases v <;> simp [strictEq]

/-- C3: in the compiled `Component` of `try-catch-with-return.expect.md`, when
the miss takes the catch path (`shallowCopy` returns a non-nullish `y` and
`throwInput y` throws), the early return `return null` is recorded in the
sentinel slot `$[1]`, the post-dispatch sentinel check re-triggers it, and the
function returns `null` — matching the original; on every subsequent cache hit
the stored early exit is replayed: the function returns `null` again (for any
environment and allocation state, since the scope body is skipped) instead of
falling through to `return x`. -/
theorem tryCatch_early_return_replayed_on_hit (env : TCEnv) (y e : JSValue)
    (hsc : env.shallowCopy (JSValue.obj 1 []) = Except.ok y)
    (hy : looseNull y = false)
    (hti : env.throwInput y = Except.error e) :
    (Component_tc_orig env 0).1 = JSValue.null ∧
    Component_tc env 0 initCache2 =
      (JSValue.null, ⟨JSValue.arr 0 [], JSValue.null⟩, 2) ∧
    (∀ env2 fresh, Component_tc env2 fresh ⟨JSValue.arr 0 [], JSValue.null⟩ =
        (JSValue.null, ⟨JSValue.arr 0 [], JSValue.null⟩, fresh)) := by
  refine ⟨?_, ?_, ?_⟩
  · simp [Component_tc_orig, hsc, hy, hti]
  · simp [Component_tc, tcScopeBody, initCache2, hsc, hy, hti, strictNeq,
      strictEq, memoSentinel, earlySentinel]
  · intro env2 fresh
    simp [Component_tc, strictNeq, strictEq, memoSentinel, earlySentinel]

/-- C3 (witness): the replay theorem at a concrete environment in which
`shallowCopy` returns a fresh object and `throwInput` always throws. -/
theorem tryCatch_early_return_replayed_on_hit_witness :
    (Component_tc_orig ⟨fun _ => Except.ok (JSValue.obj 99 []), fun v => Except.error v⟩ 0).1 =
      JSValue.null ∧
    Component_tc ⟨fun _ => Except.ok (JSValue.obj 99 []), fun v => Except.error v⟩ 0 initCache2 =
      (JSValue.null, ⟨JSValue.arr 0 [], JSValue.null⟩, 2) ∧
    Component_tc ⟨fun _ => Except.ok (JSValue.obj 99 []), fun v => Except.error v⟩ 5
        ⟨JSValue.arr 0 [], JSValue.null⟩ =
      (JSValue.null, ⟨JSValue.arr 0 [], JSValue.null⟩, 5) := by
  have h := tryCatch_early_return_replayed_on_hit
    ⟨fun _ => Except.ok (JSValue.obj 99 []), fun v => Except.error v⟩
    (JSValue.obj 99 []) (JSValue.obj 99 []) rfl rfl rfl
  exact ⟨h.1, h.2.1, h.2.2 _ 5⟩

/-- C6: in `capture_mutate-across-fns.expect.md` (`component`) and
`capturing-function-alias-computed-load.expect.md` (`bar`), a value captured by
a closure that later mutates it is not cached independently of the mutation:
the scope covering the value's creation extends through the closures' call
sites, so a miss returns (and stores) the fully mutated value — `z` already
carrying `z.b = 1`, `y` already overwritten with `x[0]` — while a hit skips
closure creation, calls and mutations together (cache, result and allocation
counter untouched) and returns the cached fully mutated value; in particular a
repeat call with the same `a` returns the identical mutated object. -/
theorem closure_mutation_covered_by_scope (fresh f2 : Nat) (a : JSValue)
    (c : Cache2) :
    (strictEq c.s0 a = false →
      component_cm fresh a c =
        (setField (JSValue.obj fresh [("a", a)]) "b" (JSValue.number 1),
          ⟨a, setField (JSValue.obj fresh [("a", a)]) "b" (JSValue.number 1)⟩,
          fresh + 1)) ∧
    (strictEq c.s0 a = true → component_cm fresh a c = (c.s1, c, fresh)) ∧
    (strictEq c.s0 a = false →
      component_cm f2 a (component_cm fresh a c).2.1 =
        ((component_cm fresh a c).1, (component_cm fresh a c).2.1, f2)) ∧
    (strictEq c.s0 a = false → bar fresh a c = (a, ⟨a, a⟩, fresh + 2)) ∧
    (strictEq c.s0 a = true → bar fresh a c = (c.s1, c, fresh)) ∧
    setField (JSValue.obj 0 [("a", JSValue.number 7)]) "b" (JSValue.number 1) =
      JSValue.obj 0 [("a", JSValue.number 7), ("b", JSValue.number 1)] := by
  refine ⟨fun h => ?_, fun h => ?_, fun h => ?_, fun h => ?_, fun h => ?_, rfl⟩
  · simp [component_cm, strictNeq, h]
  · simp [component_cm, strictNeq, h]
  · simp [component_cm, strictNeq, h, strictEq_refl]
  · simp [bar, strictNeq, h]
  · simp [bar, strictNeq, h]

/-- C6 (witness): the scope-extent theorem at `a = 7` from the uninitialized
cache: the first call returns the mutated object `{ a: 7, b: 1 }`, the second
returns the identical cached object. -/
theorem closure_mutation_covered_by_scope_witness :
    strictEq initCache2.s0 (JSValue.number 7) = false ∧
    component_cm 0 (JSValue.number 7) initCache2 =
      (setField (JSValue.obj 0 [("a", JSValue.number 7)]) "b" (JSValue.number 1),
        ⟨JSValue.number 7,
          setField (JSValue.obj 0 [("a", JSValue.number 7)]) "b" (JSValue.number 1)⟩,
        1) ∧
    component_cm 9 (JSValue.number 7)
        (component_cm 0 (JSValue.number 7) initCache2).2.1 =
      ((component_cm 0 (JSValue.number 7) initCache2).1,
        (component_cm 0 (JSValue.number 7) initCache2).2.1, 9) ∧
    bar 0 (JSValue.number 7) initCache2 =
      (JSValue.number 7, ⟨JSValue.number 7, JSValue.number 7⟩, 2) := by
  have h := closure_mutation_covered_by_scope 0 9 (JSValue.number 7) initCache2
  exact ⟨rfl, h.1 rfl, h.2.2.1 rfl, h.2.2.2.1 rfl⟩

/-- C1 (counterexample): with the user-producible argument
`Symbol.for("react.memo_cache_sentinel")`, the compiled `useHook`'s first call
reads the uninitialized cache as a hit and returns the sentinel, while the
original returns the log `["@A", "@C"]`: the output sequences differ, so the
unconditional equivalence claim is false. -/
theorem useHook_not_equivalent_at_sentinel_argument :
    (runUseHookForget 0 initCache2
        [JSValue.symbolFor "react.memo_cache_sentinel"]).map observe =
      [memoSentinel] ∧
    (runUseHook 0 [JSValue.symbolFor "react.memo_cache_sentinel"]).map observe =
      [JSValue.arr 0 [JSValue.str "@A", JSValue.str "@C"]] ∧
    memoSentinel ≠ JSValue.arr 0 [JSValue.str "@A", JSValue.str "@C"] :=
  ⟨rfl, rfl, fun h => JSValue.noConfusion h⟩

/-- C2 (counterexample): the claim that whenever "the slot holds the
uninitialized sentinel on first call, the scope body executes fully and all of
its output and dependency-snapshot slots are overwritten" is false for the
compiled `Component` of `src/unnamed/part_002`: when the dependency `state` is
itself `Symbol.for("react.memo_cache_sentinel")` (a value user code can build,
since `Symbol.for` draws from the global symbol registry), the first call finds
`$[0] !== state` false, skips the scope body (the allocation counter stays 0),
overwrites no slot, and returns the sentinel instead of the array `[state]`. -/
theorem Component_p002_first_call_sentinel_collision :
    Component_p002 0 (JSValue.symbolFor "react.memo_cache_sentinel") initCache2 =
      (memoSentinel, initCache2, 0) ∧
    memoSentinel ≠ JSValue.arr 0 [JSValue.symbolFor "react.memo_cache_sentinel"] :=
  ⟨rfl, fun h => JSValue.noConfusion h⟩

/-- C2 (amended): in the compiled `Component` of `src/unnamed/part_002`,
provided the dependency value is not itself the registered sentinel symbol:
the dependency slot is compared to the fresh value by `!==` identity; on
mismatch the scope body executes (a fresh array is allocated) and both the
dependency-snapshot slot and the output slot are overwritten; on the
uninitialized first call the body likewise executes fully; on identity match
the cached output is read back and the body is skipped entirely (no
allocation, no writes).  The comparison is identity and never deep equality:
two structurally identical arrays at distinct addresses still miss. -/
theorem Component_p002_dispatch_by_identity (fresh : Nat) (state : JSValue)
    (c : Cache2) (hs : strictEq memoSentinel state = false) :
    (strictEq c.s0 state = false →
      Component_p002 fresh state c =
        (JSValue.arr fresh [state], ⟨state, JSValue.arr fresh [state]⟩, fresh + 1)) ∧
    (strictEq c.s0 state = true →
      Component_p002 fresh state c = (c.s1, c, fresh)) ∧
    Component_p002 fresh state initCache2 =
      (JSValue.arr fresh [state], ⟨state, JSValue.arr fresh [state]⟩, fresh + 1) ∧
    (observe (JSValue.arr 0 [JSValue.number 1]) =
        observe (JSValue.arr 1 [JSValue.number 1]) ∧
      strictEq (JSValue.arr 0 [JSValue.number 1]) (JSValue.arr 1 [JSValue.number 1]) =
        false ∧
      (Component_p002 7 (JSValue.arr 1 [JSValue.number 1])
          ⟨JSValue.arr 0 [JSValue.number 1], JSValue.arr 5 [JSValue.arr 0 [JSValue.number 1]]⟩).2.1 =
        ⟨JSValue.arr 1 [JSValue.number 1],
          JSValue.arr 7 [JSValue.arr 1 [JSValue.number 1]]⟩) := by
  refine ⟨fun h => ?_, fun h => ?_, ?_, rfl, rfl, rfl⟩
  · simp [Component_p002, strictNeq, h]
  · simp [Component_p002, strictNeq, h]
  · simp [Component_p002, strictNeq, initCache2, hs]

/-- C2 (witness): the amended dispatch theorem applied at `state = 1` with the
uninitialized cache. -/
theorem Component_p002_dispatch_by_identity_witness :
    strictEq memoSentinel (JSValue.number 1) = false ∧
    Component_p002 0 (JSValue.number 1) initCache2 =
      (JSValue.arr 0 [JSValue.number 1],
        ⟨JSValue.number 1, JSValue.arr 0 [JSValue.number 1]⟩, 1) :=
  ⟨rfl, (Component_p002_dispatch_by_identity 0 (JSValue.number 1) initCache2 rfl).2.2.1⟩

/-- C5 (counterexample): the sentinel space is NOT disjoint from representable
program values.  The generated code uses `Symbol.for("react.memo_cache_sentinel")`,
a registered symbol from the global symbol registry, so user code can produce a
value that compares `===`-equal to the sentinel; feeding that value as the
dependency of `src/unnamed/part_002`'s compiled `Component` on the first call
misclassifies the uninitialized slot as a cache hit and returns the sentinel
itself. -/
theorem sentinel_not_disjoint_from_program_values :
    strictEq (JSValue.symbolFor "react.memo_cache_sentinel") memoSentinel = true ∧
    (Component_p002 0 (JSValue.symbolFor "react.memo_cache_sentinel") initCache2).1 =
      memoSentinel :=
  ⟨rfl, rfl⟩

/-- C5 (amended): the sentinels are the registered symbols
`Symbol.for("react.memo_cache_sentinel")` and
`Symbol.for("react.early_return_sentinel")`; they compare `===`-equal to no
program value other than the identical registered symbol (which user code can
produce via the global symbol registry).  Disjointness therefore holds exactly
for values that are not these two registered symbols. -/
theorem sentinel_disjoint_from_other_values (v : JSValue)
    (h1 : v ≠ JSValue.symbolFor "react.memo_cache_sentinel")
    (h2 : v ≠ JSValue.symbolFor "react.early_return_sentinel") :
    strictEq v memoSentinel = false ∧ strictEq v earlySentinel = false := by
  cases v with
  | symbolFor s =>
      refine ⟨?_, ?_⟩
      · have hs : s ≠ "react.memo_cache_sentinel" :=
          fun he => h1 (by rw [he])
        simpa [strictEq, memoSentinel] using hs
      · have hs : s ≠ "react.early_return_sentinel" :=
          fun he => h2 (by rw [he])
        simpa [strictEq, earlySentinel] using hs
  | undef => exact ⟨rfl, rfl⟩
  | null => exact ⟨rfl, rfl⟩
  | boolean b => exact ⟨rfl, rfl⟩
  | number n => exact ⟨rfl, rfl⟩
  | str s => exact ⟨rfl, rfl⟩
  | obj a fs => exact ⟨rfl, rfl⟩
  | arr a es => exact ⟨rfl, rfl⟩
  | closure a => exact ⟨rfl, rfl⟩

/-- C5 (witness): the amended disjointness theorem applied at the value `0`. -/
theorem sentinel_disjoint_from_other_values_witness :
    strictEq (JSValue.number 0) memoSentinel = false ∧
    strictEq (JSValue.number 0) earlySentinel = false :=
  sentinel_disjoint_from_other_values (JSValue.number 0)
    (fun h => JSValue.noConfusion h) (fun h => JSValue.noConfusion h)

/-- Steady state of the flag-enabled component: once the slot is populated
(with a non-sentinel value), every further invocation is a hit that still
calls `identity` but never `makeObject_Primitives`. -/
theorem runPreserve_steady (n : Nat) :
    ∀ c mk idc fresh, strictEq c.s0 memoSentinel = false →
      runPreserve n c mk idc fresh = (c, mk, idc + n, fresh) := by
  induction n with
  | zero => intro c mk idc fresh _; rfl
  | succ m ih =>
      intro c mk idc fresh h
      have hstep : Component_preserve mk idc fresh c = (c.s0, c, mk, idc + 1, fresh) := by
        simp [Component_preserve, h]
      rw [runPreserve, hstep, ih c mk (idc + 1) fresh h]
      have : idc + 1 + m = idc + (m + 1) := by omega
      rw [this]

/-- Steady state of the flag-disabled component: once the slots are populated,
every further invocation is a hit that calls neither `makeObject_Primitives`
nor `identity`. -/
theorem runNoPreserve_steady (n : Nat) :
    ∀ c mk idc fresh, strictEq c.s0 memoSentinel = false →
      runNoPreserve n c mk idc fresh = (c, mk, idc, fresh) := by
  induction n with
  | zero => intro c mk idc fresh _; rfl
  | succ m ih =>
      intro c mk idc fresh h
      have hstep : Component_noPreserve mk idc fresh c = (c.s0, c, mk, idc, fresh) := by
        simp [Component_noPreserve, h]
      rw [runNoPreserve, hstep, ih c mk idc fresh h]

/-- C7: with `enablePreserveExistingMemoizationGuarantees` set
(`useMemo-maybe-modified-later-preserve-memoization-guarantees.expect.md`),
the explicit `useMemo(..., [])` computation keeps its own scope invalidated
exactly per its empty dependency list — over `n + 1` invocations
`makeObject_Primitives` runs exactly once — while the later use
`identity(object)` is kept outside the scope and runs on every invocation
(`n + 1` times); with the flag disabled (`capturing-function-decl.expect.md`,
second document), the scope instead extends over the later use, so both run
exactly once. -/
theorem preserve_existing_memoization_granularity (n : Nat) :
    runPreserve (n + 1) initCache1 0 0 0 =
      (⟨makeObject_Primitives 0⟩, 1, n + 1, 1) ∧
    runNoPreserve (n + 1) initCache2 0 0 0 =
      (⟨makeObject_Primitives 0, makeObject_Primitives 0⟩, 1, 1, 1) := by
  constructor
  · have h1 : Component_preserve 0 0 0 initCache1 =
        (makeObject_Primitives 0, ⟨makeObject_Primitives 0⟩, 1, 1, 1) := rfl
    rw [runPreserve, h1,
      runPreserve_steady n ⟨makeObject_Primitives 0⟩ 1 1 1 rfl]
    have : 1 + n = n + 1 := by omega
    rw [this]
  · have h1 : Component_noPreserve 0 0 0 initCache2 =
        (makeObject_Primitives 0,
          ⟨makeObject_Primitives 0, makeObject_Primitives 0⟩, 1, 1, 1) := rfl
    rw [runNoPreserve, h1,
      runNoPreserve_steady n ⟨makeObject_Primitives 0, makeObject_Primitives 0⟩ 1 1 1 rfl]

/-- The compiled `useFoo` advances the `useNoAlias` call counter by exactly one
per invocation, in the miss branch and the hit branch alike. -/
theorem useFooForget_calls (env : Int → Nat → JSValue) (k fresh : Nat)
    (v1 v2 : Int) (c : Cache2) :
    (useFooForget env k fresh v1 v2 c).2.2.1 = k + 1 := by
  rw [useFooForget]
  split <;> rfl

/-- Over any argument sequence, the compiled `useFoo` calls `useNoAlias`
exactly once per invocation: the counter ends at `k` plus the number of
invocations, independent of cache hits. -/
theorem useNoAliasCalls_count (env : Int → Nat → JSValue)
    (args : List (Int × Int)) :
    ∀ k fresh c, useNoAliasCalls env k fresh c args = k + args.length := by
  induction args with
  | nil => intro k fresh c; rfl
  | cons p rest ih =>
      obtain ⟨v1, v2⟩ := p
      intro k fresh c
      rw [useNoAliasCalls, useFooForget_calls, ih]
      simp [List.length_cons]
      omega

/-- C8: instructions with unknown or disallowed effects.  In the compiled
`foo` of `obj-mutated-after-if-else-with-alias.expect.md`, the first
`someObj()` call (unknown effects, result unused) is left outside any scope
and executes on every invocation: a cache hit still advances the `someObj`
counter by one while skipping the scope, and a miss advances it by two (the
outside call plus the scope's own call).  In the compiled `useFoo` of
`src/unnamed/part_000`, the `useNoAlias` call (not proven pure, result used
functionally) likewise runs on every invocation, while its functionally used
result is wrapped in a reactive scope keyed on it. -/
theorem unknown_effect_calls_always_inline (envF : FooEnv) (k fresh : Nat)
    (a b c d : JSValue) (cache : Cache2)
    (env : Int → Nat → JSValue) (k0 f0 : Nat) (c0 : Cache2)
    (args : List (Int × Int)) :
    (strictEq cache.s0 a = true →
      foo envF k fresh a b c d cache = (cache.s1, cache, k + 1, fresh + 1)) ∧
    (strictEq cache.s0 a = false →
      (foo envF k fresh a b c d cache).2.2 = (k + 2, fresh + 2)) ∧
    useNoAliasCalls env k0 f0 c0 args = k0 + args.length := by
  refine ⟨fun h => ?_, fun h => ?_, useNoAliasCalls_count env args k0 f0 c0⟩
  · simp [foo, strictNeq, h]
  · simp [foo, strictNeq, h]

/-- C8 (witness): a hit at `a = 1` makes exactly one `someObj` call and reads
the cache; a miss at `a = 3` makes two; two `useFoo` invocations make two
`useNoAlias` calls. -/
theorem unknown_effect_calls_always_inline_witness :
    foo ⟨fun _ => []⟩ 0 0 (JSValue.number 1) JSValue.undef JSValue.undef
        JSValue.undef ⟨JSValue.number 1, JSValue.number 2⟩ =
      (JSValue.number 2, ⟨JSValue.number 1, JSValue.number 2⟩, 1, 1) ∧
    (foo ⟨fun _ => []⟩ 0 0 (JSValue.number 3) JSValue.undef JSValue.undef
        JSValue.undef ⟨JSValue.number 1, JSValue.number 2⟩).2.2 = (2, 2) ∧
    useNoAliasCalls (fun _ _ => JSValue.number 5) 0 0 initCache2 [(1, 2), (1, 2)] = 2 := by
  refine ⟨?_, ?_, ?_⟩
  · exact (unknown_effect_calls_always_inline ⟨fun _ => []⟩ 0 0 (JSValue.number 1)
      JSValue.undef JSValue.undef JSValue.undef ⟨JSValue.number 1, JSValue.number 2⟩
      (fun _ _ => JSValue.number 5) 0 0 initCache2 []).1 rfl
  · exact (unknown_effect_calls_always_inline ⟨fun _ => []⟩ 0 0 (JSValue.number 3)
      JSValue.undef JSValue.undef JSValue.undef ⟨JSValue.number 1, JSValue.number 2⟩
      (fun _ _ => JSValue.number 5) 0 0 initCache2 []).2.1 rfl
  · exact (unknown_effect_calls_always_inline ⟨fun _ => []⟩ 0 0 (JSValue.number 3)
      JSValue.undef JSValue.undef JSValue.undef ⟨JSValue.number 1, JSValue.number 2⟩
      (fun _ _ => JSValue.number 5) 0 0 initCache2 [(1, 2), (1, 2)]).2.2

/-- C10: the cache-hit branch performs no writes, and a miss writes all of a
scope's slots in the same invocation.  In the compiled `foo` of
`obj-mutated-after-if-else-with-alias.expect.md`: a hit leaves the cache
untouched, a miss overwrites both the dependency snapshot and the output slot
with this invocation's values, and the all-or-nothing cache-state invariant
`FooCacheOK` is preserved by every invocation.  In the compiled `Component` of
`try-catch-with-return.expect.md`: a hit (slot not the uninitialized sentinel)
leaves the cache untouched, and the first-call miss populates both slots from
the single scope-body execution. -/
theorem cache_hit_no_writes_miss_writes_all (envF : FooEnv) (k fresh : Nat)
    (a b c d : JSValue) (cache : Cache2) (env : TCEnv) (c2 : Cache2) (f2 : Nat) :
    (strictEq cache.s0 a = true → (foo envF k fresh a b c d cache).2.1 = cache) ∧
    (strictEq cache.s0 a = false →
      (foo envF k fresh a b c d cache).2.1 =
        ⟨a, (foo envF k fresh a b c d cache).1⟩) ∧
    (FooCacheOK envF cache → FooCacheOK envF (foo envF k fresh a b c d cache).2.1) ∧
    (strictEq c2.s0 memoSentinel = false → (Component_tc env f2 c2).2.1 = c2) ∧
    (strictEq c2.s0 memoSentinel = true →
      (Component_tc env f2 c2).2.1 =
        ⟨(tcScopeBody env f2).1, (tcScopeBody env f2).2⟩) := by
  refine ⟨fun h => ?_, fun h => ?_, fun hok => ?_, fun h => ?_, fun h => ?_⟩
  · simp [foo, strictNeq, h]
  · simp [foo, strictNeq, h]
  · rcases hmiss : strictEq cache.s0 a with _ | _
    · exact Or.inr ⟨a, k + 1, fresh + 1, by simp [foo, strictNeq, hmiss]⟩
    · have : (foo envF k fresh a b c d cache).2.1 = cache := by
        simp [foo, strictNeq, hmiss]
      rw [this]; exact hok
  · rw [Component_tc]
    simp only [h, Bool.false_eq_true, if_false]
    split <;> rfl
  · rw [Component_tc]
    simp only [h, if_true]
    split <;> rfl

/-- C10 (witness): concrete hit and miss of `foo` and of the try-catch
component, exhibiting untouched versus wholly rewritten caches. -/
theorem cache_hit_no_writes_miss_writes_all_witness :
    (foo ⟨fun _ => []⟩ 0 0 (JSValue.number 1) JSValue.undef JSValue.undef
        JSValue.undef ⟨JSValue.number 1, JSValue.number 2⟩).2.1 =
      ⟨JSValue.number 1, JSValue.number 2⟩ ∧
    (foo ⟨fun _ => []⟩ 0 0 (JSValue.number 3) JSValue.undef JSValue.undef
        JSValue.undef ⟨JSValue.number 1, JSValue.number 2⟩).2.1 =
      ⟨JSValue.number 3,
        (foo ⟨fun _ => []⟩ 0 0 (JSValue.number 3) JSValue.undef JSValue.undef
          JSValue.undef ⟨JSValue.number 1, JSValue.number 2⟩).1⟩ ∧
    (Component_tc ⟨fun _ => Except.ok JSValue.null, fun v => Except.ok v⟩ 4
        ⟨JSValue.arr 0 [], JSValue.null⟩).2.1 = ⟨JSValue.arr 0 [], JSValue.null⟩ ∧
    (Component_tc ⟨fun _ => Except.ok JSValue.null, fun v => Except.ok v⟩ 0
        initCache2).2.1 =
      ⟨(tcScopeBody ⟨fun _ => Except.ok JSValue.null, fun v => Except.ok v⟩ 0).1,
        (tcScopeBody ⟨fun _ => Except.ok JSValue.null, fun v => Except.ok v⟩ 0).2⟩ := by
  refine ⟨?_, ?_, ?_, ?_⟩
  · exact (cache_hit_no_writes_miss_writes_all ⟨fun _ => []⟩ 0 0 (JSValue.number 1)
      JSValue.undef JSValue.undef JSValue.undef ⟨JSValue.number 1, JSValue.number 2⟩
      ⟨fun _ => Except.ok JSValue.null, fun v => Except.ok v⟩ initCache2 0).1 rfl
  · exact (cache_hit_no_writes_miss_writes_all ⟨fun _ => []⟩ 0 0 (JSValue.number 3)
      JSValue.undef JSValue.undef JSValue.undef ⟨JSValue.number 1, JSValue.number 2⟩
      ⟨fun _ => Except.ok JSValue.null, fun v => Except.ok v⟩ initCache2 0).2.1 rfl
  · exact (cache_hit_no_writes_miss_writes_all ⟨fun _ => []⟩ 0 0 (JSValue.number 3)
      JSValue.undef JSValue.undef JSValue.undef ⟨JSValue.number 1, JSValue.number 2⟩
      ⟨fun _ => Except.ok JSValue.null, fun v => Except.ok v⟩
      ⟨JSValue.arr 0 [], JSValue.null⟩ 4).2.2.2.1 rfl
  · exact (cache_hit_no_writes_miss_writes_all ⟨fun _ => []⟩ 0 0 (JSValue.number 3)
      JSValue.undef JSValue.undef JSValue.undef ⟨JSValue.number 1, JSValue.number 2⟩
      ⟨fun _ => Except.ok JSValue.null, fun v => Except.ok v⟩ initCache2 0).2.2.2.2 rfl

/-- Steady state of the hoisting component: once both no-dependency scopes are
populated (with non-sentinel values), every invocation is a double hit
returning the cached JSX object, with no allocation. -/
theorem runHoistingOuts_steady (n : Nat) :
    ∀ c fresh, strictEq c.s0 memoSentinel = false →
      strictEq c.s1 memoSentinel = false →
      runHoistingOuts n c fresh = List.replicate n c.s1 := by
  induction n with
  | zero => intro c fresh _ _; rfl
  | succ m ih =>
      intro c fresh h0 h1
      have hstep : Component_hoisting fresh c = (c.s1, c, fresh) := by
        simp [Component_hoisting, h0, h1]
      rw [runHoistingOuts, hstep, ih c fresh h0 h1]
      rfl

/-- C4: the total slot count passed to `useMemoCache` equals, summed over the
function's reactive scopes, one slot per output plus one per dependency
comparison: 2 for `src/unnamed/part_002` (1 dep + 1 output), 3 for the
`props.a`/`props.b` component of `capture_mutate-across-fns.expect.md`
(2 deps + 1 output), 2 for `src/unnamed/part_000`, 2 for
`hoisting-within-lambda.expect.md` (two 0-dep 1-output scopes), 2 for
`try-catch-with-return.expect.md` (0 deps + 2 outputs), 3 for
`src/unnamed/part_001`; a scope with two dependencies and one output uses 3
slots, with one dependency and one output 2, with no dependencies exactly 1 —
and a no-dependency scope is never recomputed after the first call: over
`n + 1` invocations, the hoisting component allocates only on the first and
returns the identical cached object every time. -/
theorem cache_slot_counts (n : Nat) :
    slotCount scopes_p002 = 2 ∧ slotCount scopes_props_ab = 3 ∧
    slotCount scopes_useFoo = 2 ∧ slotCount scopes_hoisting = 2 ∧
    slotCount scopes_tryCatch = 2 ∧ slotCount scopes_p001 = 3 ∧
    slotCount [ScopeShape.mk 2 1] = 3 ∧ slotCount [ScopeShape.mk 1 1] = 2 ∧
    slotCount [ScopeShape.mk 0 1] = 1 ∧
    runHoistingOuts (n + 1) initCache2 0 =
      List.replicate (n + 1)
        (JSValue.obj 1 [("tag", JSValue.str "div"), ("children", JSValue.number 3)]) := by
  refine ⟨rfl, rfl, rfl, rfl, rfl, rfl, rfl, rfl, rfl, ?_⟩
  have h1 : Component_hoisting 0 initCache2 =
      (JSValue.obj 1 [("tag", JSValue.str "div"), ("children", JSValue.number 3)],
        ⟨JSValue.closure 0,
          JSValue.obj 1 [("tag", JSValue.str "div"), ("children", JSValue.number 3)]⟩,
        2) := rfl
  rw [runHoistingOuts, h1,
    runHoistingOuts_steady n
      ⟨JSValue.closure 0,
        JSValue.obj 1 [("tag", JSValue.str "div"), ("children", JSValue.number 3)]⟩
      2 rfl rfl]
  rfl

/-- Allocation handles a concatenation of scope lists compositionally: the
later scopes are allocated starting from the state the earlier ones left. -/
theorem allocate_append (xs ys : List ScopeInfo) :
    ∀ st, allocate st (xs ++ ys) =
      ((allocate st xs).1 ++ (allocate (allocate st xs).2 ys).1,
        (allocate (allocate st xs).2 ys).2) := by
  induction xs with
  | nil => intro st; rfl
  | cons s rest ih =>
      intro st
      rw [List.cons_append, allocate, allocate, ih]
      simp

/-- The allocator emits exactly one slot assignment per scope. -/
theorem allocate_length (xs : List ScopeInfo) :
    ∀ st, (allocate st xs).1.length = xs.length := by
  induction xs with
  | nil => intro st; rfl
  | cons s rest ih => intro st; simp [allocate, ih]

/-- C9: slot allocation is deterministic and stable.  Two compilations of the
identical scope list produce the identical slot assignment and total count
(the allocator is a pure function of the source's scopes, with no ambient
state); the assignment is in first-appearance order, so extending the source
with additional scopes never shifts the slots already assigned to earlier
scopes; and on the fixture shapes the model reproduces the generated layouts:
dep slot `$[0]` and output `$[1]` (total 2) for one scope with one dependency,
`$[0]`,`$[1]` deps and `$[2]` output (total 3) for two dependencies, and
`$[0]`/`$[1]` then `$[2]` (total 3) for a 1-dep scope followed by a 0-dep
scope, exactly as in `src/unnamed/part_002`, `capture_mutate-across-fns` and
`src/unnamed/part_001`. -/
theorem slot_allocation_deterministic_and_stable
    (s1 s2 : List ScopeInfo) (h : s1 = s2) (xs extra : List ScopeInfo) :
    allocate allocInit s1 = allocate allocInit s2 ∧
    (allocate allocInit (xs ++ extra)).1.take xs.length = (allocate allocInit xs).1 ∧
    allocate allocInit [ScopeInfo.mk [0] 1] =
      ([([0], [1])], ⟨[(0, 0)], 2⟩) ∧
    allocate allocInit [ScopeInfo.mk [0, 1] 1] =
      ([([0, 1], [2])], ⟨[(0, 0), (1, 1)], 3⟩) ∧
    allocate allocInit [ScopeInfo.mk [0] 1, ScopeInfo.mk [] 1] =
      ([([0], [1]), ([], [2])], ⟨[(0, 0)], 3⟩) := by
  refine ⟨by rw [h], ?_, rfl, rfl, rfl⟩
  rw [allocate_append]
  rw [show xs.length = (allocate allocInit xs).1.length from
    (allocate_length xs allocInit).symm]
  exact List.take_left _ _

/-- C9 (witness): determinism and prefix stability at concrete scope lists:
appending a scope with a new dependency does not shift the first scope's
assignment. -/
theorem slot_allocation_deterministic_and_stable_witness :
    allocate allocInit [ScopeInfo.mk [0] 1] = allocate allocInit [ScopeInfo.mk [0] 1] ∧
    (allocate allocInit ([ScopeInfo.mk [0] 1] ++ [ScopeInfo.mk [2] 1])).1.take 1 =
      (allocate allocInit [ScopeInfo.mk [0] 1]).1 := by
  have h := slot_allocation_deterministic_and_stable
    [ScopeInfo.mk [0] 1] [ScopeInfo.mk [0] 1] rfl
    [ScopeInfo.mk [0] 1] [ScopeInfo.mk [2] 1]
  exact ⟨h.1, h.2.1⟩
